import Mathlib

/-!
Shallow embedding of the OAuth authorization-code flow of
`src/src/app.ts` (a Spotify CLI integration): the loopback callback
listener `getSpotifyAuthCode`, the flow coordinator
`initializeSpotifyClientWithOAuth`, and the WHATWG URL behaviour the code
relies on (`new URL(...).port`, `url.searchParams.get`).  The external
SDK collaborators (`buildAuthorizationUrl`, `fetchToken`,
`withConfiguration`) are modelled through the narrow contract the code
uses.  Side-effecting steps are recorded in an explicit event trace so
that ordering and frame properties can be stated.
-/

namespace SpotifyOAuth

/-- The three scopes requested in `app.ts` (`OAuthScopeEnum.PlaylistModifyPrivate`,
`PlaylistModifyPublic`, `UserReadPrivate`). -/
inductive OAuthScopeEnum where
  | playlistModifyPrivate
  | playlistModifyPublic
  | userReadPrivate
  deriving DecidableEq, Repr

/-- The SDK environment selector; `app.ts` always passes `Environment.Production`. -/
inductive Environment where
  | production
  deriving DecidableEq, Repr

/-- The `authorizationCodeAuthCredentials` object of the client configuration.
`oAuthToken` is absent (`none`) in the initial configuration and set by
`withConfiguration` after the token exchange; the token itself is kept
opaque as a string. -/
structure AuthorizationCodeAuthCredentials where
  oAuthClientId : String
  oAuthClientSecret : String
  oAuthRedirectUri : String
  oAuthScopes : List OAuthScopeEnum
  oAuthToken : Option String := none
  deriving DecidableEq, Repr

/-- The configuration object built in `initializeSpotifyClientWithOAuth`
(`authorizationCodeAuthCredentials`, `timeout: 0`, `environment:
Environment.Production`). -/
structure ClientConfiguration where
  authorizationCodeAuthCredentials : AuthorizationCodeAuthCredentials
  timeout : Nat
  environment : Environment
  deriving DecidableEq, Repr

/-- The SDK client: for this flow it is a handle carrying its configuration. -/
structure Client where
  config : ClientConfiguration
  deriving DecidableEq, Repr

/-- Modelled from the spec: the external SDK's `withConfiguration` produces a
new client whose configuration merges the given partial configuration into
the old one.  `app.ts` passes only `authorizationCodeAuthCredentials`, so the
contract used is: replace the credential block, keep every other field. -/
def Client.withConfiguration (c : Client)
    (creds : AuthorizationCodeAuthCredentials) : Client :=
  ⟨{ c.config with authorizationCodeAuthCredentials := creds }⟩

/-! ### WHATWG query-string parsing (`url.searchParams.get('code')`) -/

/-- Value of a hexadecimal digit, `none` for other characters. -/
def hexDigitVal (c : Char) : Option Nat :=
  if 48 ≤ c.toNat ∧ c.toNat ≤ 57 then some (c.toNat - 48)
  else if 97 ≤ c.toNat ∧ c.toNat ≤ 102 then some (c.toNat - 87)
  else if 65 ≤ c.toNat ∧ c.toNat ≤ 70 then some (c.toNat - 55)
  else none

/-- Form-urlencoded decoding as `URLSearchParams` does it:
`+` becomes a space and `%XY` (two hex digits) becomes the code point `XY`.
Decoding is modelled at code-point level; it agrees with the browser's
byte-level decoding on ASCII data, which covers authorization codes. -/
def percentDecodeChars : List Char → List Char
  | [] => []
  | '+' :: rest => ' ' :: percentDecodeChars rest
  | '%' :: a :: b :: rest =>
      match hexDigitVal a, hexDigitVal b with
      | some ha, some hb => Char.ofNat (ha * 16 + hb) :: percentDecodeChars rest
      | _, _ => '%' :: percentDecodeChars (a :: b :: rest)
  | c :: rest => c :: percentDecodeChars rest

/-- String form of `percentDecodeChars`. -/
def percentDecode (s : String) : String :=
  String.mk (percentDecodeChars s.toList)

/-- Split a query segment at its first `=`: `key=value`, or the whole
segment as key with empty value when no `=` is present (both `?code` and
`?code=` give the value `""`, as `URLSearchParams` does). -/
def splitFirstEq : List Char → List Char × List Char
  | [] => ([], [])
  | '=' :: rest => ([], rest)
  | c :: rest =>
      let kv := splitFirstEq rest
      (c :: kv.1, kv.2)

/-- Split a character list at every `&`. -/
def splitOnAmp : List Char → List (List Char)
  | [] => [[]]
  | c :: rest =>
      let groups := splitOnAmp rest
      if c = '&' then [] :: groups
      else
        match groups with
        | [] => [[c]]
        | g :: gs => (c :: g) :: gs

/-- The `&`-separated segments of a query string, empty segments skipped. -/
def querySegments (q : String) : List String :=
  ((splitOnAmp q.toList).map String.mk).filter (fun seg => seg ≠ "")

/-- The lookup `URLSearchParams.get(key)` over the query string (the part of the URL
after `?`): the decoded value of the first segment whose decoded key equals
`key`, or `none`. -/
def searchParamsGet (q : String) (key : String) : Option String :=
  (querySegments q).findSome? fun seg =>
    let kv := splitFirstEq seg.toList
    if String.mk (percentDecodeChars kv.1) = key then
      some (String.mk (percentDecodeChars kv.2))
    else none

/-- The query string of a URL: the characters after the first `?`, cut at
`#`; empty when the URL has no `?`. -/
def queryStringOf (url : String) : String :=
  match url.toList.dropWhile (fun c => c ≠ '?') with
  | [] => ""
  | _ :: rest => String.mk (rest.takeWhile (fun c => c ≠ '#'))

/-! ### The callback request handler (the `http.createServer` callback) -/

/-- An incoming HTTP request as the handler sees it: the `Host` header and
`req.url` (path plus query). -/
structure HttpRequest where
  host : String
  url : String
  deriving DecidableEq, Repr

/-- The response the handler writes: status, `Content-Type`, body. -/
structure HttpResponse where
  statusCode : Nat
  contentType : String
  body : String
  deriving DecidableEq, Repr

/-- The outcome the listener settles its pending promise with. -/
inductive CallbackOutcome where
  | resolveCode (code : String)
  | rejectNoCode
  deriving DecidableEq, Repr

/-- The request handler of `getSpotifyAuthCode`: rebuild the full URL from
the host header and `req.url`, read `searchParams.get('code')`, and branch
on JavaScript truthiness (`null` and `""` are falsy): a non-empty code gives
a 200 success page and resolution with the code, anything else a 400 page
and rejection. -/
def handleCallbackRequest (req : HttpRequest) : HttpResponse × CallbackOutcome :=
  let fullUrl := "http://" ++ req.host ++ req.url
  match searchParamsGet (queryStringOf fullUrl) "code" with
  | some code =>
      if code = "" then
        (⟨400, "text/html", "<h1>No code found in the callback.</h1>"⟩,
         CallbackOutcome.rejectNoCode)
      else
        (⟨200, "text/html", "<h1>Authorization successful! You can close this window.</h1>"⟩,
         CallbackOutcome.resolveCode code)
  | none =>
      (⟨400, "text/html", "<h1>No code found in the callback.</h1>"⟩,
       CallbackOutcome.rejectNoCode)

/-! ### The listener as a one-shot state machine

`getSpotifyAuthCode` wraps the server in a promise: the handler closes the
server (`server.close()`) and then settles the promise.  A Node server that
is closed accepts no further connections and a settled promise ignores any
later settlement, so the listener is a state machine over incoming
requests. -/

/-- Listener state: whether the server still accepts connections, the
settled promise value (a promise settles at most once), and how many
requests the handler has processed. -/
structure ServerState where
  listening : Bool
  settled : Option CallbackOutcome
  handledCount : Nat
  deriving DecidableEq, Repr

/-- The listener's state right after `server.listen` succeeds. -/
def serverInit : ServerState := ⟨true, none, 0⟩

/-- Promise settlement: the first settlement wins, later ones are ignored. -/
def settleOnce (p : Option CallbackOutcome) (o : CallbackOutcome) :
    Option CallbackOutcome :=
  match p with
  | none => some o
  | some o0 => some o0

/-- One incoming request: a closed server never delivers it to the handler;
a listening server runs the handler, closes, and settles the promise. -/
def serverStep (s : ServerState) (req : HttpRequest) :
    ServerState × Option HttpResponse :=
  if s.listening then
    let out := handleCallbackRequest req
    (⟨false, settleOnce s.settled out.2, s.handledCount + 1⟩, some out.1)
  else (s, none)

/-- Feed a sequence of incoming requests to the listener. -/
def serverRun (reqs : List HttpRequest) (s : ServerState) : ServerState :=
  reqs.foldl (fun st r => (serverStep st r).1) s

/-! ### WHATWG URL parsing: `new URL(...)`, its `.port` property, and the
port computation `Number(new URL(redirectUri).port) || 4000` -/

/-- The decimal digit characters. -/
def digitChar : Nat → Char
  | 0 => '0' | 1 => '1' | 2 => '2' | 3 => '3' | 4 => '4'
  | 5 => '5' | 6 => '6' | 7 => '7' | 8 => '8' | 9 => '9'
  | _ => '*'

/-- Decimal digit characters of `n`, most significant first (fuel-driven so
that it is structurally recursive; `natDigits` supplies enough fuel). -/
def natDigitsCore : Nat → Nat → List Char
  | 0, _ => []
  | fuel + 1, n =>
      if n < 10 then [digitChar n]
      else natDigitsCore fuel (n / 10) ++ [digitChar (n % 10)]

/-- Decimal representation of `n` (`0` is written `"0"`), as the WHATWG URL
serializer writes a port. -/
def natDigits (n : Nat) : String :=
  String.mk (natDigitsCore (n + 1) n)

/-- Is `c` a decimal digit? -/
def isDigitChar (c : Char) : Bool :=
  48 ≤ c.toNat && c.toNat ≤ 57

/-- Value of a list of decimal digit characters, most significant first. -/
def digitsToNat (cs : List Char) : Nat :=
  cs.foldl (fun a c => a * 10 + (c.toNat - 48)) 0

/-- JavaScript `Number(s)` restricted to the strings a URL `.port` property
can be: `Number("") = 0`, a digit string has its decimal value, anything
else is `NaN` (`none`). -/
def jsNumberOfDigits (s : String) : Option Nat :=
  match s.toList with
  | [] => some 0
  | cs => if cs.all isDigitChar then some (digitsToNat cs) else none

/-- The parts of a parsed WHATWG URL this flow reads: scheme, host, and the
port component (`none` when the URL has no explicit port or the explicit
port equals the scheme's default, which the parser normalizes away). -/
structure URLRec where
  scheme : String
  host : String
  port : Option Nat
  deriving DecidableEq, Repr

/-- Default port of the WHATWG special schemes. -/
def schemeDefaultPort : String → Option Nat
  | "http" => some 80
  | "https" => some 443
  | "ws" => some 80
  | "wss" => some 443
  | "ftp" => some 21
  | _ => none

/-- Is `c` an ASCII letter? -/
def isAlphaChar (c : Char) : Bool :=
  (65 ≤ c.toNat && c.toNat ≤ 90) || (97 ≤ c.toNat && c.toNat ≤ 122)

/-- Characters allowed after the first character of a URL scheme. -/
def isSchemeChar (c : Char) : Bool :=
  isAlphaChar c || isDigitChar c || c = '+' || c = '-' || c = '.'

/-- Split `host[:port]` (userinfo already removed) into host and the port
text after the colon; an IPv6 literal `[...]` keeps its colons. Yields
`none` for the port when there is no colon. -/
def splitHostPort (cs : List Char) : List Char × Option (List Char) :=
  match cs with
  | '[' :: rest =>
      let bracket := rest.takeWhile (fun c => c ≠ ']')
      match rest.dropWhile (fun c => c ≠ ']') with
      | ']' :: ':' :: p => ('[' :: bracket ++ [']'], some p)
      | _ => ('[' :: bracket ++ [']'], none)
  | _ =>
      let host := cs.takeWhile (fun c => c ≠ ':')
      match cs.dropWhile (fun c => c ≠ ':') with
      | ':' :: p => (host, some p)
      | _ => (host, none)

/-- Drop a `userinfo@` prefix from an authority, keeping the part after the
last `@` (as the WHATWG parser does). -/
def dropUserinfo (cs : List Char) : List Char :=
  if cs.contains '@' then
    ((cs.reverse.takeWhile (fun c => c ≠ '@')).reverse)
  else cs

/-- Embeds `new URL(s)` for the absolute hierarchical URLs this flow handles
(special schemes with `//` authorities): extract scheme (lowercased),
authority host, and port.  Parsing fails (`none`, the constructor throws a
`TypeError`) when the scheme or authority is malformed, the port is not all
digits, or the port exceeds 65535.  An explicit port equal to the scheme's
default is normalized to `none`, so `.port` serializes as `""`. -/
def parseURL (s : String) : Option URLRec :=
  let cs := s.toList
  let schemeCs := cs.takeWhile (fun c => c ≠ ':')
  match cs.dropWhile (fun c => c ≠ ':') with
  | ':' :: '/' :: '/' :: afterSlashes =>
      if schemeCs ≠ [] ∧ schemeCs.all isSchemeChar ∧
          isAlphaChar (schemeCs.headD ' ') then
        let scheme := String.mk (schemeCs.map Char.toLower)
        let authority :=
          afterSlashes.takeWhile (fun c => c ≠ '/' ∧ c ≠ '?' ∧ c ≠ '#')
        let hp := splitHostPort (dropUserinfo authority)
        if hp.1 = [] then none
        else
          match hp.2 with
          | none => some ⟨scheme, String.mk hp.1, none⟩
          | some [] => some ⟨scheme, String.mk hp.1, none⟩
          | some portCs =>
              if portCs.all isDigitChar then
                let v := digitsToNat portCs
                if v ≤ 65535 then
                  if schemeDefaultPort scheme = some v then
                    some ⟨scheme, String.mk hp.1, none⟩
                  else some ⟨scheme, String.mk hp.1, some v⟩
                else none
              else none
      else none
  | _ => none

/-- The URL object's `.port` property: the serialized port component, `""`
when the component is null. -/
def URL.portProp (r : URLRec) : String :=
  match r.port with
  | none => ""
  | some p => natDigits p

/-- The listener port computation of `getSpotifyAuthCode`:
`Number(new URL(redirectUri).port) || 4000` (`0` and `NaN` are falsy). -/
def portOr4000 (r : URLRec) : Nat :=
  match jsNumberOfDigits (URL.portProp r) with
  | some n => if n = 0 then 4000 else n
  | none => 4000

/-- Modelled from the spec: "the redirect URI has an explicit numeric port"
read syntactically — the digit string standing after the colon of the
URI's authority, before any normalization by a URL parser. -/
def specExplicitPort (uri : String) : Option Nat :=
  let cs := uri.toList
  match cs.dropWhile (fun c => c ≠ ':') with
  | ':' :: '/' :: '/' :: afterSlashes =>
      let authority :=
        afterSlashes.takeWhile (fun c => c ≠ '/' ∧ c ≠ '?' ∧ c ≠ '#')
      match (splitHostPort (dropUserinfo authority)).2 with
      | some portCs =>
          if portCs ≠ [] ∧ portCs.all isDigitChar then
            some (digitsToNat portCs)
          else none
      | none => none
  | _ => none

/-! ### The flow coordinator `initializeSpotifyClientWithOAuth` -/

/-- The process environment variables the module reads at startup. -/
structure ProcessEnv where
  spotifyClientId : Option String
  spotifyClientSecret : Option String
  spotifyRedirectUri : Option String
  deriving DecidableEq, Repr

/-- Embeds `const clientId = process.env.SPOTIFY_CLIENT_ID || ''`. -/
def clientId (env : ProcessEnv) : String := env.spotifyClientId.getD ""

/-- Embeds `const clientSecret = process.env.SPOTIFY_CLIENT_SECRET || ''`. -/
def clientSecret (env : ProcessEnv) : String := env.spotifyClientSecret.getD ""

/-- Embeds `const redirectUri = process.env.SPOTIFY_REDIRECT_URI || ''`. -/
def redirectUri (env : ProcessEnv) : String := env.spotifyRedirectUri.getD ""

/-- The external SDK collaborators the coordinator calls:
`authorizationCodeAuthManager.buildAuthorizationUrl()` (pure, reads the
client configuration) and `authorizationCodeAuthManager.fetchToken(code)`
(the provider's token exchange; `none` models an absent token). -/
structure SdkHooks where
  buildAuthorizationUrl : ClientConfiguration → String
  fetchToken : String → Option String

/-- JavaScript truthiness of a nullable string: `null`/`undefined` and `""`
are falsy (`if (code)`, `if (!token)`). -/
def jsTruthyOptStr (o : Option String) : Bool :=
  match o with
  | none => false
  | some s => s ≠ ""

/-- The observable steps of one flow run, in order: launching the browser
(`open.default(authUrl)`), constructing the HTTP server, the `server.listen`
call (with the port passed and the host argument, which `app.ts` omits),
writing a response, `server.close()`, and the SDK token-exchange call. -/
inductive FlowEvent where
  | launchBrowser (url : String)
  | serverCreate
  | listenAttempt (port : Nat) (host : Option String)
  | respond (statusCode : Nat) (body : String)
  | serverClose
  | fetchTokenCall (code : String)
  deriving DecidableEq, Repr

/-- How the promise of `getSpotifyAuthCode` ends: resolution with the code,
rejection (`No code found in callback`), rejection with the `TypeError`
thrown by `new URL(redirectUri)` inside the executor, or no settlement at
all because the unhandled listen-failure `error` event crashed the process. -/
inductive AwaitResult where
  | resolved (code : String)
  | rejectedNoCode
  | rejectedInvalidUrl
  | crashed
  deriving DecidableEq, Repr

/-- Embeds `getSpotifyAuthCode(authUrl, redirectUri)`: launch the browser on the
authorization URL, create the server, compute the port
(`Number(new URL(redirectUri).port) || 4000`), call `server.listen(port)`
— no host argument — and wait for one callback request.  `bindOk` says
whether the bind succeeds (the code installs no `error` handler, so a
failed bind crashes the process); `req` is the single request that arrives
when it does.  Returns the promise's fate and the event trace. -/
def getSpotifyAuthCode (authUrl theRedirectUri : String) (bindOk : Bool)
    (req : HttpRequest) : AwaitResult × List FlowEvent :=
  let tr0 := [FlowEvent.launchBrowser authUrl, FlowEvent.serverCreate]
  match parseURL theRedirectUri with
  | none => (AwaitResult.rejectedInvalidUrl, tr0)
  | some r =>
      let port := portOr4000 r
      let tr1 := tr0 ++ [FlowEvent.listenAttempt port none]
      if bindOk then
        let out := handleCallbackRequest req
        let tr2 := tr1 ++
          [FlowEvent.respond out.1.statusCode out.1.body, FlowEvent.serverClose]
        match out.2 with
        | CallbackOutcome.resolveCode code => (AwaitResult.resolved code, tr2)
        | CallbackOutcome.rejectNoCode => (AwaitResult.rejectedNoCode, tr2)
      else (AwaitResult.crashed, tr1)

/-- How a run of the coordinator ends: a configured client (the Session),
a rejection propagated to the caller, or a process crash (unhandled
listener error). -/
inductive FlowResult where
  | ok (client : Client)
  | errNoCode
  | errInvalidRedirectUri
  | tokenFetchFailed
  | crashed
  deriving DecidableEq, Repr

/-- The scope list `app.ts` requests. -/
def requestedScopes : List OAuthScopeEnum :=
  [OAuthScopeEnum.playlistModifyPrivate,
   OAuthScopeEnum.playlistModifyPublic,
   OAuthScopeEnum.userReadPrivate]

/-- The configuration object built at the top of
`initializeSpotifyClientWithOAuth`. -/
def initialConfig (env : ProcessEnv) : ClientConfiguration :=
  { authorizationCodeAuthCredentials :=
      { oAuthClientId := clientId env
        oAuthClientSecret := clientSecret env
        oAuthRedirectUri := redirectUri env
        oAuthScopes := requestedScopes
        oAuthToken := none }
    timeout := 0
    environment := Environment.production }

/-- Embeds `initializeSpotifyClientWithOAuth()`: build the configuration and
client, build the authorization URL, run `getSpotifyAuthCode`, exchange the
code for a token (`fetchToken`), throw `Failed to fetch token!` when the
token is falsy, and otherwise return
`client.withConfiguration({...creds, oAuthToken: token})`.  Parameters:
the process environment, the SDK collaborators, whether the listener bind
succeeds, and the single callback request.  Returns the result and the
event trace. -/
def initializeSpotifyClientWithOAuth (env : ProcessEnv) (sdk : SdkHooks)
    (bindOk : Bool) (req : HttpRequest) : FlowResult × List FlowEvent :=
  let config := initialConfig env
  let client : Client := ⟨config⟩
  let authUrl := sdk.buildAuthorizationUrl config
  match getSpotifyAuthCode authUrl (redirectUri env) bindOk req with
  | (AwaitResult.resolved authCode, tr) =>
      let tr := tr ++ [FlowEvent.fetchTokenCall authCode]
      let token := sdk.fetchToken authCode
      if jsTruthyOptStr token then
        (FlowResult.ok (client.withConfiguration
          { config.authorizationCodeAuthCredentials with oAuthToken := token }), tr)
      else (FlowResult.tokenFetchFailed, tr)
  | (AwaitResult.rejectedNoCode, tr) => (FlowResult.errNoCode, tr)
  | (AwaitResult.rejectedInvalidUrl, tr) => (FlowResult.errInvalidRedirectUri, tr)
  | (AwaitResult.crashed, tr) => (FlowResult.crashed, tr)

/-- Is this event a browser launch? -/
def FlowEvent.isLaunchBrowser : FlowEvent → Bool
  | FlowEvent.launchBrowser _ => true
  | _ => false

/-- Is this event a `server.listen` call? -/
def FlowEvent.isListenAttempt : FlowEvent → Bool
  | FlowEvent.listenAttempt _ _ => true
  | _ => false

/-- Is this event a token-exchange call? -/
def FlowEvent.isFetchTokenCall : FlowEvent → Bool
  | FlowEvent.fetchTokenCall _ => true
  | _ => false

/-! ### Helper lemmas -/

/-- Shared concrete flow inputs used by witnesses and counterexamples. -/
def envFlow : ProcessEnv :=
  ⟨some "cid", some "sec", some "http://localhost:4000/callback"⟩

/-- A concrete SDK collaborator: a fixed authorization URL and a token
exchange returning the token `tok99`. -/
def sdkFlow : SdkHooks :=
  ⟨fun _ => "https://accounts.spotify.com/authorize", fun _ => some "tok99"⟩

/-- A concrete callback request carrying `?code=ABC123`. -/
def reqFlow : HttpRequest := ⟨"localhost:4000", "/callback?code=ABC123"⟩

/-- A concrete callback request with a provider error and no code. -/
def reqNoCode : HttpRequest := ⟨"localhost:4000", "/callback?error=access_denied"⟩

/-- An SDK collaborator whose token endpoint returns an empty token. -/
def sdkEmptyToken : SdkHooks :=
  ⟨fun _ => "https://accounts.spotify.com/authorize", fun _ => some ""⟩

theorem digitsToNat_append (cs : List Char) (c : Char) :
    digitsToNat (cs ++ [c]) = digitsToNat cs * 10 + (c.toNat - 48) := by
  simp [digitsToNat, List.foldl_append]

theorem digitChar_spec : ∀ d : Nat, d < 10 →
    isDigitChar (digitChar d) = true ∧ (digitChar d).toNat - 48 = d := by decide

theorem natDigitsCore_spec : ∀ fuel n : Nat, n < fuel →
    (natDigitsCore fuel n).all isDigitChar = true ∧
    digitsToNat (natDigitsCore fuel n) = n ∧ natDigitsCore fuel n ≠ [] := by
  intro fuel
  induction fuel with
  | zero => intro n h; omega
  | succ fuel ih =>
      intro n h
      by_cases h10 : n < 10
      · obtain ⟨hd, hv⟩ := digitChar_spec n h10
        refine ⟨?_, ?_, ?_⟩ <;> simp [natDigitsCore, h10, digitsToNat, hd, hv]
      · have hdiv : n / 10 < n := Nat.div_lt_self (by omega) (by omega)
        obtain ⟨iha, ihv, ihne⟩ := ih (n / 10) (by omega)
        obtain ⟨hd, hv⟩ := digitChar_spec (n % 10) (Nat.mod_lt n (by omega))
        have hmod : n / 10 * 10 + n % 10 = n := by omega
        refine ⟨?_, ?_, ?_⟩
        · simp [natDigitsCore, h10, List.all_append, iha, hd]
        · simp [natDigitsCore, h10, digitsToNat_append, ihv, hv, hmod]
        · simp [natDigitsCore, h10]

theorem jsNumberOfDigits_natDigits (n : Nat) :
    jsNumberOfDigits (natDigits n) = some n := by
  obtain ⟨ha, hv, hne⟩ := natDigitsCore_spec (n + 1) n (Nat.lt_succ_self n)
  unfold jsNumberOfDigits natDigits
  cases hcs : natDigitsCore (n + 1) n with
  | nil => exact absurd hcs hne
  | cons a as =>
      rw [hcs] at ha hv
      simpa [String.toList, ha] using hv

/-- The port computation `Number(url.port) || 4000` expressed on the parsed
port component: a null port and port `0` give `4000`, any other parsed
port gives itself (serialization followed by `Number` round-trips). -/
theorem portOr4000_port (r : URLRec) :
    portOr4000 r =
      match r.port with
      | none => 4000
      | some p => if p = 0 then 4000 else p := by
  unfold portOr4000 URL.portProp
  cases hp : r.port with
  | none => simp [jsNumberOfDigits, String.toList]
  | some p => rw [jsNumberOfDigits_natDigits]

/-- A request to a server that is no longer listening changes nothing. -/
theorem serverRun_closed (reqs : List HttpRequest) (s : ServerState)
    (h : s.listening = false) : serverRun reqs s = s := by
  induction reqs with
  | nil => rfl
  | cons r rs ih =>
      show serverRun rs (serverStep s r).1 = s
      simp only [serverStep, h]
      simpa using ih

/-- A request whose query has a non-empty `code` takes the 200 branch. -/
theorem handleCallbackRequest_code (req : HttpRequest) (c : String)
    (hcode : searchParamsGet
      (queryStringOf ("http://" ++ req.host ++ req.url)) "code" = some c)
    (hc : c ≠ "") :
    handleCallbackRequest req =
      (⟨200, "text/html",
        "<h1>Authorization successful! You can close this window.</h1>"⟩,
       CallbackOutcome.resolveCode c) := by
  simp only [handleCallbackRequest]
  rw [hcode]
  simp [hc]

/-- A request whose query has no `code` parameter takes the 400 branch. -/
theorem handleCallbackRequest_nocode (req : HttpRequest)
    (hcode : searchParamsGet
      (queryStringOf ("http://" ++ req.host ++ req.url)) "code" = none) :
    handleCallbackRequest req =
      (⟨400, "text/html", "<h1>No code found in the callback.</h1>"⟩,
       CallbackOutcome.rejectNoCode) := by
  simp only [handleCallbackRequest]
  rw [hcode]

/-- Evaluation of `getSpotifyAuthCode` under a valid redirect URI, a
successful bind and a resolving request. -/
theorem getSpotifyAuthCode_resolved (authUrl ru : String) (req : HttpRequest)
    (r : URLRec) (c : String) (hurl : parseURL ru = some r)
    (hreq : (handleCallbackRequest req).2 = CallbackOutcome.resolveCode c) :
    getSpotifyAuthCode authUrl ru true req =
      (AwaitResult.resolved c,
       [FlowEvent.launchBrowser authUrl, FlowEvent.serverCreate,
        FlowEvent.listenAttempt (portOr4000 r) none,
        FlowEvent.respond (handleCallbackRequest req).1.statusCode
          (handleCallbackRequest req).1.body,
        FlowEvent.serverClose]) := by
  simp only [getSpotifyAuthCode]
  rw [hurl]
  simp [hreq]

/-- Evaluation of `getSpotifyAuthCode` under a valid redirect URI, a
successful bind and a rejecting request. -/
theorem getSpotifyAuthCode_rejected (authUrl ru : String) (req : HttpRequest)
    (r : URLRec) (hurl : parseURL ru = some r)
    (hreq : (handleCallbackRequest req).2 = CallbackOutcome.rejectNoCode) :
    getSpotifyAuthCode authUrl ru true req =
      (AwaitResult.rejectedNoCode,
       [FlowEvent.launchBrowser authUrl, FlowEvent.serverCreate,
        FlowEvent.listenAttempt (portOr4000 r) none,
        FlowEvent.respond (handleCallbackRequest req).1.statusCode
          (handleCallbackRequest req).1.body,
        FlowEvent.serverClose]) := by
  simp only [getSpotifyAuthCode]
  rw [hurl]
  simp [hreq]

/-! ### Claims -/

/-- C1: for every flow run in which the callback delivers a valid
(non-empty) authorization code and the token exchange returns a non-empty
token, `initializeSpotifyClientWithOAuth` returns a Session (client) whose
credentials carry exactly that token, unchanged. -/
theorem C1_session_carries_exact_token (env : ProcessEnv) (sdk : SdkHooks)
    (req : HttpRequest) (r : URLRec) (c t : String)
    (hurl : parseURL (redirectUri env) = some r)
    (hcode : searchParamsGet
      (queryStringOf ("http://" ++ req.host ++ req.url)) "code" = some c)
    (hc : c ≠ "") (htok : sdk.fetchToken c = some t) (ht : t ≠ "") :
    ∃ cl : Client,
      (initializeSpotifyClientWithOAuth env sdk true req).1 = FlowResult.ok cl ∧
      cl.config.authorizationCodeAuthCredentials.oAuthToken = some t := by
  have h200 := handleCallbackRequest_code req c hcode hc
  simp only [initializeSpotifyClientWithOAuth]
  rw [getSpotifyAuthCode_resolved _ _ _ r c hurl (by rw [h200])]
  simp [htok, jsTruthyOptStr, ht, Client.withConfiguration]

/-- Witness for C1 at a concrete run: code `ABC123`, token `tok99`. -/
theorem C1_witness :
    ∃ cl : Client,
      (initializeSpotifyClientWithOAuth envFlow sdkFlow true reqFlow).1 =
        FlowResult.ok cl ∧
      cl.config.authorizationCodeAuthCredentials.oAuthToken = some "tok99" :=
  C1_session_carries_exact_token envFlow sdkFlow reqFlow
    ⟨"http", "localhost", some 4000⟩ "ABC123" "tok99"
    (by decide) (by decide) (by decide) (by decide) (by decide)

/-- C2: per flow run the listener produces at most one `CallbackOutcome`:
the first request is handled, the listener closes, and any later request is
ignored, so the pending result is settled exactly once — with the first
request's outcome. -/
theorem C2_single_resolution (reqs : List HttpRequest) :
    (serverRun reqs serverInit).handledCount ≤ 1 ∧
    (serverRun reqs serverInit).settled =
      reqs.head?.map (fun r => (handleCallbackRequest r).2) := by
  cases reqs with
  | nil => simp [serverRun, serverInit]
  | cons r rs =>
      have h1 : (serverStep serverInit r).1 =
          ⟨false, some (handleCallbackRequest r).2, 1⟩ := by
        simp [serverStep, serverInit, settleOnce]
      have h2 : serverRun (r :: rs) serverInit =
          ⟨false, some (handleCallbackRequest r).2, 1⟩ := by
        show serverRun rs (serverStep serverInit r).1 = _
        rw [h1, serverRun_closed rs _ rfl]
      simp [h2]

/-- C3: a callback request whose query carries a non-empty `code` gets the
200 success page and the listener resolves with exactly that code. -/
theorem C3_code_resolves (req : HttpRequest) (c : String)
    (hcode : searchParamsGet
      (queryStringOf ("http://" ++ req.host ++ req.url)) "code" = some c)
    (hc : c ≠ "") :
    (handleCallbackRequest req).1.statusCode = 200 ∧
    (handleCallbackRequest req).1.body =
      "<h1>Authorization successful! You can close this window.</h1>" ∧
    (handleCallbackRequest req).2 = CallbackOutcome.resolveCode c := by
  rw [handleCallbackRequest_code req c hcode hc]
  exact ⟨rfl, rfl, rfl⟩

/-- Witness for C3: `?code=ABC123` gives 200 and resolves `ABC123`. -/
theorem C3_witness :
    (handleCallbackRequest reqFlow).1.statusCode = 200 ∧
    (handleCallbackRequest reqFlow).1.body =
      "<h1>Authorization successful! You can close this window.</h1>" ∧
    (handleCallbackRequest reqFlow).2 = CallbackOutcome.resolveCode "ABC123" :=
  C3_code_resolves reqFlow "ABC123" (by decide) (by decide)

/-- C4: a callback request without a `code` parameter gets the 400 failure
page, the listener rejects (no code in callback), the whole flow fails,
and no token-exchange call ever appears in the run's trace. -/
theorem C4_no_code_aborts (env : ProcessEnv) (sdk : SdkHooks)
    (req : HttpRequest) (r : URLRec)
    (hurl : parseURL (redirectUri env) = some r)
    (hnone : searchParamsGet
      (queryStringOf ("http://" ++ req.host ++ req.url)) "code" = none) :
    (handleCallbackRequest req).1.statusCode = 400 ∧
    (handleCallbackRequest req).1.body = "<h1>No code found in the callback.</h1>" ∧
    (handleCallbackRequest req).2 = CallbackOutcome.rejectNoCode ∧
    (initializeSpotifyClientWithOAuth env sdk true req).1 = FlowResult.errNoCode ∧
    ∀ e ∈ (initializeSpotifyClientWithOAuth env sdk true req).2,
      FlowEvent.isFetchTokenCall e = false := by
  have h400 := handleCallbackRequest_nocode req hnone
  refine ⟨by rw [h400], by rw [h400], by rw [h400], ?_, ?_⟩
  · simp only [initializeSpotifyClientWithOAuth]
    rw [getSpotifyAuthCode_rejected _ _ _ r hurl (by rw [h400])]
  · simp only [initializeSpotifyClientWithOAuth]
    rw [getSpotifyAuthCode_rejected _ _ _ r hurl (by rw [h400])]
    simp [FlowEvent.isFetchTokenCall]

/-- Witness for C4 at `?error=access_denied`. -/
theorem C4_witness :
    (handleCallbackRequest reqNoCode).1.statusCode = 400 ∧
    (handleCallbackRequest reqNoCode).1.body =
      "<h1>No code found in the callback.</h1>" ∧
    (handleCallbackRequest reqNoCode).2 = CallbackOutcome.rejectNoCode ∧
    (initializeSpotifyClientWithOAuth envFlow sdkFlow true reqNoCode).1 =
      FlowResult.errNoCode ∧
    ∀ e ∈ (initializeSpotifyClientWithOAuth envFlow sdkFlow true reqNoCode).2,
      FlowEvent.isFetchTokenCall e = false :=
  C4_no_code_aborts envFlow sdkFlow reqNoCode ⟨"http", "localhost", some 4000⟩
    (by decide) (by decide)

/-- C5: when the token exchange returns an empty or absent token, the flow
fails (`Failed to fetch token!`) and no Session is ever constructed. -/
theorem C5_empty_token_fails (env : ProcessEnv) (sdk : SdkHooks)
    (req : HttpRequest) (r : URLRec) (c : String)
    (hurl : parseURL (redirectUri env) = some r)
    (hcode : searchParamsGet
      (queryStringOf ("http://" ++ req.host ++ req.url)) "code" = some c)
    (hc : c ≠ "")
    (htok : sdk.fetchToken c = none ∨ sdk.fetchToken c = some "") :
    (initializeSpotifyClientWithOAuth env sdk true req).1 =
      FlowResult.tokenFetchFailed ∧
    ∀ cl : Client,
      (initializeSpotifyClientWithOAuth env sdk true req).1 ≠ FlowResult.ok cl := by
  have h200 := handleCallbackRequest_code req c hcode hc
  have hfalse : jsTruthyOptStr (sdk.fetchToken c) = false := by
    rcases htok with h | h <;> simp [h, jsTruthyOptStr]
  have hmain : (initializeSpotifyClientWithOAuth env sdk true req).1 =
      FlowResult.tokenFetchFailed := by
    simp only [initializeSpotifyClientWithOAuth]
    rw [getSpotifyAuthCode_resolved _ _ _ r c hurl (by rw [h200])]
    simp [hfalse]
  exact ⟨hmain, fun cl h => by rw [hmain] at h; exact FlowResult.noConfusion h⟩

/-- Witness for C5: a token endpoint answering the empty token. -/
theorem C5_witness :
    (initializeSpotifyClientWithOAuth envFlow sdkEmptyToken true reqFlow).1 =
      FlowResult.tokenFetchFailed ∧
    ∀ cl : Client,
      (initializeSpotifyClientWithOAuth envFlow sdkEmptyToken true reqFlow).1 ≠
        FlowResult.ok cl :=
  C5_empty_token_fails envFlow sdkEmptyToken reqFlow
    ⟨"http", "localhost", some 4000⟩ "ABC123"
    (by decide) (by decide) (by decide) (Or.inr (by decide))

/-- C6 counterexample: the claim says the listener is listening before or
concurrently with the browser launch; in a concrete successful run the
first `server.listen` event stands strictly after the browser-launch
event, so the launch precedes the bind. -/
theorem C6_counterexample :
    ¬ ((initializeSpotifyClientWithOAuth envFlow sdkFlow true reqFlow).2.findIdx
        FlowEvent.isListenAttempt ≤
       (initializeSpotifyClientWithOAuth envFlow sdkFlow true reqFlow).2.findIdx
        FlowEvent.isLaunchBrowser) := by decide

/-- C6 (amended): in every flow run the browser is launched first and the
`server.listen` call follows it in the same synchronous step — the run's
trace starts with launch, server construction, then the bind — so a very
fast redirect could arrive before the port is bound. -/
theorem C6_amended_browser_launch_precedes_listen (env : ProcessEnv)
    (sdk : SdkHooks) (bindOk : Bool) (req : HttpRequest) (r : URLRec)
    (hurl : parseURL (redirectUri env) = some r) :
    (initializeSpotifyClientWithOAuth env sdk bindOk req).2.take 3 =
      [FlowEvent.launchBrowser (sdk.buildAuthorizationUrl (initialConfig env)),
       FlowEvent.serverCreate,
       FlowEvent.listenAttempt (portOr4000 r) none] := by
  simp only [initializeSpotifyClientWithOAuth, getSpotifyAuthCode]
  rw [hurl]
  cases bindOk
  · simp
  · cases hreq : (handleCallbackRequest req).2 with
    | resolveCode code =>
        simp [hreq]
        split <;> simp
    | rejectNoCode => simp [hreq]

/-- Witness for the amended C6 at a concrete successful run. -/
theorem C6_amended_witness :
    (initializeSpotifyClientWithOAuth envFlow sdkFlow true reqFlow).2.take 3 =
      [FlowEvent.launchBrowser
        (sdkFlow.buildAuthorizationUrl (initialConfig envFlow)),
       FlowEvent.serverCreate,
       FlowEvent.listenAttempt 4000 none] :=
  C6_amended_browser_launch_precedes_listen envFlow sdkFlow true reqFlow
    ⟨"http", "localhost", some 4000⟩ (by decide)

/-- C7 counterexample: the claim says a failed bind aborts the flow with a
`ListenerBindError` before any network round-trip to the provider; in a
concrete run whose bind fails, the browser has already been launched on
the provider's authorization URL, and the run ends as a crash from the
unhandled listener error, not as a structured bind error. -/
theorem C7_counterexample :
    FlowEvent.launchBrowser "https://accounts.spotify.com/authorize" ∈
      (initializeSpotifyClientWithOAuth envFlow sdkFlow false reqFlow).2 ∧
    (initializeSpotifyClientWithOAuth envFlow sdkFlow false reqFlow).1 =
      FlowResult.crashed := by decide

/-- C7 (amended): when the bind fails the flow does abort — the process
crashes on the unhandled `error` event, no response is written and no
token exchange is attempted — but the browser has already been launched
toward the provider before the bind attempt, and no structured
`ListenerBindError` is produced. -/
theorem C7_amended_bind_failure_crashes_after_launch (env : ProcessEnv)
    (sdk : SdkHooks) (req : HttpRequest) (r : URLRec)
    (hurl : parseURL (redirectUri env) = some r) :
    (initializeSpotifyClientWithOAuth env sdk false req).1 = FlowResult.crashed ∧
    (initializeSpotifyClientWithOAuth env sdk false req).2 =
      [FlowEvent.launchBrowser (sdk.buildAuthorizationUrl (initialConfig env)),
       FlowEvent.serverCreate,
       FlowEvent.listenAttempt (portOr4000 r) none] := by
  simp only [initializeSpotifyClientWithOAuth, getSpotifyAuthCode]
  rw [hurl]
  simp

/-- Witness for the amended C7 at a concrete failing bind. -/
theorem C7_amended_witness :
    (initializeSpotifyClientWithOAuth envFlow sdkFlow false reqFlow).1 =
      FlowResult.crashed ∧
    (initializeSpotifyClientWithOAuth envFlow sdkFlow false reqFlow).2 =
      [FlowEvent.launchBrowser
        (sdkFlow.buildAuthorizationUrl (initialConfig envFlow)),
       FlowEvent.serverCreate,
       FlowEvent.listenAttempt 4000 none] :=
  C7_amended_bind_failure_crashes_after_launch envFlow sdkFlow reqFlow
    ⟨"http", "localhost", some 4000⟩ (by decide)

/-- C8 counterexample: the claim says the listener binds the loopback
interface only; in a concrete run the one `server.listen` call carries no
host argument at all (`none`), which in Node binds every interface. -/
theorem C8_counterexample :
    (initializeSpotifyClientWithOAuth envFlow sdkFlow true reqFlow).2.filter
        FlowEvent.isListenAttempt = [FlowEvent.listenAttempt 4000 none] ∧
    FlowEvent.listenAttempt 4000 none ∈
      (initializeSpotifyClientWithOAuth envFlow sdkFlow true reqFlow).2 := by decide

/-- C8 (amended): in every flow run the listener binds exactly once, on the
port taken from the redirect URI, but with no host restriction (Node's
default, all interfaces), not loopback-only. -/
theorem C8_amended_listen_unrestricted_host (env : ProcessEnv)
    (sdk : SdkHooks) (bindOk : Bool) (req : HttpRequest) (r : URLRec)
    (hurl : parseURL (redirectUri env) = some r) :
    (initializeSpotifyClientWithOAuth env sdk bindOk req).2.filter
        FlowEvent.isListenAttempt =
      [FlowEvent.listenAttempt (portOr4000 r) none] := by
  simp only [initializeSpotifyClientWithOAuth, getSpotifyAuthCode]
  rw [hurl]
  cases bindOk
  · simp [FlowEvent.isListenAttempt, FlowEvent.isLaunchBrowser]
  · cases hreq : (handleCallbackRequest req).2 with
    | resolveCode code =>
        simp [hreq, FlowEvent.isListenAttempt]
        split <;> simp [FlowEvent.isListenAttempt]
    | rejectNoCode => simp [hreq, FlowEvent.isListenAttempt]

/-- Witness for the amended C8 at a concrete run. -/
theorem C8_amended_witness :
    (initializeSpotifyClientWithOAuth envFlow sdkFlow true reqFlow).2.filter
        FlowEvent.isListenAttempt = [FlowEvent.listenAttempt 4000 none] :=
  C8_amended_listen_unrestricted_host envFlow sdkFlow true reqFlow
    ⟨"http", "localhost", some 4000⟩ (by decide)

/-- C9 counterexample: `http://localhost:80/callback` carries the explicit
numeric port 80, yet the listener computation binds 4000: the WHATWG
parser normalizes a scheme-default port away, `.port` serializes as `""`,
and `Number("") || 4000` is 4000. -/
theorem C9_counterexample :
    specExplicitPort "http://localhost:80/callback" = some 80 ∧
    (parseURL "http://localhost:80/callback").map portOr4000 = some 4000 ∧
    (parseURL "http://localhost:80/callback").map portOr4000 ≠ some 80 := by
  decide

/-- C9 (amended): for every redirect URI the URL constructor accepts, the
listener binds 4000 when the parsed URL has no port component (no explicit
port, or an explicit port equal to the scheme's default, which the parser
drops) and also for explicit port 0; it binds the parsed port itself in
every other case. -/
theorem C9_amended_port_rule (uri : String) (r : URLRec)
    (_hurl : parseURL uri = some r) :
    (r.port = none → portOr4000 r = 4000) ∧
    (∀ p : Nat, r.port = some p → p ≠ 0 → portOr4000 r = p) ∧
    (r.port = some 0 → portOr4000 r = 4000) := by
  refine ⟨fun h => ?_, fun p h hp => ?_, fun h => ?_⟩
  · simp [portOr4000_port, h]
  · simp [portOr4000_port, h, hp]
  · simp [portOr4000_port, h]

/-- Witness for the amended C9: an explicit non-default port is kept, and
a portless URI gives 4000. -/
theorem C9_amended_witness :
    ((URLRec.mk "http" "localhost" (some 4000)).port = some 4000 →
      4000 ≠ 0 → portOr4000 ⟨"http", "localhost", some 4000⟩ = 4000) ∧
    portOr4000 ⟨"http", "localhost", some 4000⟩ = 4000 :=
  ⟨fun h hp =>
    (C9_amended_port_rule "http://localhost:4000/callback"
      ⟨"http", "localhost", some 4000⟩ (by decide)).2.1 4000 h hp,
   (C9_amended_port_rule "http://localhost:4000/callback"
      ⟨"http", "localhost", some 4000⟩ (by decide)).2.1 4000 rfl (by decide)⟩

/-- C10: on success the returned client's credentials keep exactly the
original client id, client secret, redirect URI and scope list; the only
credential field changed or added is the access token. -/
theorem C10_only_token_changes (env : ProcessEnv) (sdk : SdkHooks)
    (req : HttpRequest) (r : URLRec) (c t : String)
    (hurl : parseURL (redirectUri env) = some r)
    (hcode : searchParamsGet
      (queryStringOf ("http://" ++ req.host ++ req.url)) "code" = some c)
    (hc : c ≠ "") (htok : sdk.fetchToken c = some t) (ht : t ≠ "") :
    (initializeSpotifyClientWithOAuth env sdk true req).1 =
      FlowResult.ok ⟨{ initialConfig env with
        authorizationCodeAuthCredentials :=
          { (initialConfig env).authorizationCodeAuthCredentials with
              oAuthToken := some t } }⟩ := by
  have h200 := handleCallbackRequest_code req c hcode hc
  simp only [initializeSpotifyClientWithOAuth]
  rw [getSpotifyAuthCode_resolved _ _ _ r c hurl (by rw [h200])]
  simp [htok, jsTruthyOptStr, ht, Client.withConfiguration]

/-- Witness for C10 at a concrete run: every credential field except the
token is the configured one. -/
theorem C10_witness :
    (initializeSpotifyClientWithOAuth envFlow sdkFlow true reqFlow).1 =
      FlowResult.ok ⟨{ initialConfig envFlow with
        authorizationCodeAuthCredentials :=
          { (initialConfig envFlow).authorizationCodeAuthCredentials with
              oAuthToken := some "tok99" } }⟩ :=
  C10_only_token_changes envFlow sdkFlow reqFlow
    ⟨"http", "localhost", some 4000⟩ "ABC123" "tok99"
    (by decide) (by decide) (by decide) (by decide) (by decide)

end SpotifyOAuth
